import Mathlib

/-!
Verification of the checkout flow in `refactor.py`.

The program is a strategy-based transaction coordinator: an `Order` record,
a payment-processor capability (`process(order) -> bool`, implemented by
`CreditCardProcessor` and `QrisProcessor`, both of which only log and return
`True`), a notification capability (`send(order)`, implemented by
`EmailNotifier`, which only logs), and a coordinator
`CheckoutService.run_checkout(order)` that calls the processor, on success
sets `order.status = "paid"`, calls the notifier and returns `True`, and on
failure returns `False` leaving the order untouched.

A Python `process` method receives the order by reference and may in
principle mutate any of its fields, so an injected processor is embedded as
a function `Order → Bool × Order` (returned flag, order state after the
call); an injected notifier is `Order → Order`.  The coordinator is embedded
as a function returning the boolean result, the final order state, the list
of order states passed to the notifier (to count `send` invocations), and
the list of order states written by the coordinator itself (to count
coordinator mutations).  Logging only writes to the log stream and never
touches the order, so it has no counterpart in the state.
-/

/-- The `Order` record of `refactor.py`: `customer_name`, `total_price`,
and a mutable `status` string. -/
structure Order where
  customer_name : String
  total_price : Int
  status : String
deriving Repr, DecidableEq

/-- `Order.__init__`: a freshly constructed order carries the given customer
name and total price and has status `"pending"`. -/
def Order.init (customer_name : String) (total_price : Int) : Order :=
  { customer_name := customer_name, total_price := total_price, status := "pending" }

/-- Observable outcome of one `run_checkout` call: the returned boolean, the
final state of the order, the order states passed to the notifier's `send`
(in call order), and the order states produced by the coordinator's own
assignments to the order. -/
structure CheckoutResult where
  ret : Bool
  order : Order
  sends : List Order
  mutations : List Order
deriving Repr, DecidableEq

/-- `CheckoutService.run_checkout`: call `process(order)`; if it returns
`True`, set `order.status = "paid"`, call `send(order)` and return `True`;
otherwise return `False` without touching the order. -/
def run_checkout (process : Order → Bool × Order) (send : Order → Order)
    (order : Order) : CheckoutResult :=
  let r := process order
  let payment_success := r.1
  let order1 := r.2
  if payment_success then
    let order2 := { order1 with status := "paid" }
    let order3 := send order2
    { ret := true, order := order3, sends := [order2], mutations := [order2] }
  else
    { ret := false, order := order1, sends := [], mutations := [] }

/-- `CreditCardProcessor.process`: logs a line and returns `True`; the order
is not modified. -/
def CreditCardProcessor.process (order : Order) : Bool × Order :=
  (true, order)

/-- `QrisProcessor.process`: logs a line and returns `True`; the order is
not modified. -/
def QrisProcessor.process (order : Order) : Bool × Order :=
  (true, order)

/-- `EmailNotifier.send`: logs a line; the order is not modified. -/
def EmailNotifier.send (order : Order) : Order :=
  order

/-- A processor stub that reports payment failure without touching the
order (the spec's Scenario C stub; no such processor exists in the
source itself). -/
def declineProcessor (order : Order) : Bool × Order :=
  (false, order)

/-- Claim C1: for every order and every injected processor whose `process`
returns `true` on it, `run_checkout` (with the program's `EmailNotifier`)
returns `true` and the final order status is `"paid"`. -/
theorem C1_run_checkout_success (process : Order → Bool × Order) (order : Order)
    (h : (process order).1 = true) :
    (run_checkout process EmailNotifier.send order).ret = true ∧
    (run_checkout process EmailNotifier.send order).order.status = "paid" := by
  simp [run_checkout, EmailNotifier.send, h]

/-- Claim C1 witness: concrete run with `CreditCardProcessor` on Andi's
order from the demo driver. -/
theorem C1_witness :
    (run_checkout CreditCardProcessor.process EmailNotifier.send
      (Order.init "Andi" 500000)).ret = true ∧
    (run_checkout CreditCardProcessor.process EmailNotifier.send
      (Order.init "Andi" 500000)).order.status = "paid" :=
  C1_run_checkout_success CreditCardProcessor.process (Order.init "Andi" 500000) rfl

/-- Claim C2: for every pending order and every injected processor that
returns `false` on it without mutating it, `run_checkout` returns `false`
and the order is unchanged, in particular still `"pending"`. -/
theorem C2_run_checkout_failure (process : Order → Bool × Order)
    (send : Order → Order) (order : Order)
    (hpend : order.status = "pending")
    (hfalse : (process order).1 = false)
    (hframe : (process order).2 = order) :
    (run_checkout process send order).ret = false ∧
    (run_checkout process send order).order = order ∧
    (run_checkout process send order).order.status = "pending" := by
  simp [run_checkout, hfalse, hframe, hpend]

/-- Claim C2 witness: concrete run with the declining stub on Andi's
order. -/
theorem C2_witness :
    (run_checkout declineProcessor EmailNotifier.send
      (Order.init "Andi" 500000)).ret = false ∧
    (run_checkout declineProcessor EmailNotifier.send
      (Order.init "Andi" 500000)).order = Order.init "Andi" 500000 ∧
    (run_checkout declineProcessor EmailNotifier.send
      (Order.init "Andi" 500000)).order.status = "pending" :=
  C2_run_checkout_failure declineProcessor EmailNotifier.send
    (Order.init "Andi" 500000) rfl rfl rfl

/-- Claim C3: in every `run_checkout` call, the notifier's `send` is invoked
exactly once when the processor returns `true` and zero times when it
returns `false`. -/
theorem C3_send_count (process : Order → Bool × Order) (send : Order → Order)
    (order : Order) :
    (run_checkout process send order).sends.length =
      if (process order).1 then 1 else 0 := by
  by_cases h : (process order).1 <;> simp [run_checkout, h]

/-- Claim C4: every order state passed to the notifier's `send` during
`run_checkout` has status `"paid"` at the moment of the call. -/
theorem C4_send_only_paid (process : Order → Bool × Order) (send : Order → Order)
    (order : Order) :
    ∀ o ∈ (run_checkout process send order).sends, o.status = "paid" := by
  by_cases h : (process order).1 <;> simp [run_checkout, h]

/-- Claim C4 witness: in the concrete credit-card run on Andi's order, the
single order passed to `send` has status `"paid"`. -/
theorem C4_witness :
    ({ customer_name := "Andi", total_price := 500000, status := "paid" } : Order).status
      = "paid" :=
  C4_send_only_paid CreditCardProcessor.process EmailNotifier.send
    (Order.init "Andi" 500000)
    { customer_name := "Andi", total_price := 500000, status := "paid" }
    (by simp [run_checkout, CreditCardProcessor.process, Order.init])

/-- Claim C5: on any two orders with equal field values, running the
coordinator with `CreditCardProcessor` and with `QrisProcessor` injected
yields the same return value and the same final status (Open/Closed
substitutability). -/
theorem C5_ocp_equivalence (o1 o2 : Order)
    (hc : o1.customer_name = o2.customer_name)
    (hp : o1.total_price = o2.total_price)
    (hs : o1.status = o2.status) :
    (run_checkout CreditCardProcessor.process EmailNotifier.send o1).ret =
      (run_checkout QrisProcessor.process EmailNotifier.send o2).ret ∧
    (run_checkout CreditCardProcessor.process EmailNotifier.send o1).order.status =
      (run_checkout QrisProcessor.process EmailNotifier.send o2).order.status := by
  simp [run_checkout, CreditCardProcessor.process, QrisProcessor.process,
    EmailNotifier.send]

/-- Claim C5 witness: Andi's order run through the credit-card coordinator
against an identical order run through the QRIS coordinator. -/
theorem C5_witness :
    (run_checkout CreditCardProcessor.process EmailNotifier.send
      (Order.init "Andi" 500000)).ret =
      (run_checkout QrisProcessor.process EmailNotifier.send
        (Order.init "Andi" 500000)).ret ∧
    (run_checkout CreditCardProcessor.process EmailNotifier.send
      (Order.init "Andi" 500000)).order.status =
      (run_checkout QrisProcessor.process EmailNotifier.send
        (Order.init "Andi" 500000)).order.status :=
  C5_ocp_equivalence (Order.init "Andi" 500000) (Order.init "Andi" 500000)
    rfl rfl rfl

/-- Claim C6: every constructed order starts `"pending"`; the coordinator's
only write sets the status to `"paid"`; and none of the program's concrete
capabilities (`CreditCardProcessor`, `QrisProcessor`, `EmailNotifier`)
modifies the order at all — so reachable statuses are `"pending"` and
`"paid"` and the only transition is pending → paid on payment success. -/
theorem C6_status_invariant :
    (∀ c t, (Order.init c t).status = "pending") ∧
    (∀ (process : Order → Bool × Order) (send : Order → Order) (order : Order),
      ∀ m ∈ (run_checkout process send order).mutations, m.status = "paid") ∧
    (∀ order, (CreditCardProcessor.process order).2 = order) ∧
    (∀ order, (QrisProcessor.process order).2 = order) ∧
    (∀ order, EmailNotifier.send order = order) := by
  refine ⟨fun c t => rfl, fun process send order m hm => ?_,
    fun order => rfl, fun order => rfl, fun order => rfl⟩
  by_cases h : (process order).1 <;> simp [run_checkout, h] at hm
  simp [hm]

/-- Claim C6 witness: the coordinator write observed in the concrete
credit-card run on Andi's order has status `"paid"`. -/
theorem C6_witness :
    ({ customer_name := "Andi", total_price := 500000, status := "paid" } : Order).status
      = "paid" :=
  C6_status_invariant.2.1 CreditCardProcessor.process EmailNotifier.send
    (Order.init "Andi" 500000)
    { customer_name := "Andi", total_price := 500000, status := "paid" }
    (by simp [run_checkout, CreditCardProcessor.process, Order.init])

/-- Claim C7 counterexample: with a processor that returns `false`, the
coordinator performs zero mutations of the order, not exactly one — the
claim that the order is mutated exactly once regardless of the processor's
outcome is false. -/
theorem C7_counterexample :
    ¬ (run_checkout declineProcessor EmailNotifier.send
        (Order.init "Andi" 500000)).mutations.length = 1 := by
  decide

/-- Claim C7 (amended): in every `run_checkout` call the coordinator
mutates the order exactly once when the processor returns `true`, and zero
times when it returns `false`. -/
theorem C7_mutation_count (process : Order → Bool × Order) (send : Order → Order)
    (order : Order) :
    (run_checkout process send order).mutations.length =
      if (process order).1 then 1 else 0 := by
  by_cases h : (process order).1 <;> simp [run_checkout, h]

/-- Claim C8: both implemented payment processors leave the order's status
field unchanged. -/
theorem C8_processors_preserve_status (order : Order) :
    (CreditCardProcessor.process order).2.status = order.status ∧
    (QrisProcessor.process order).2.status = order.status :=
  ⟨rfl, rfl⟩

/-- Claim C9: both implemented payment processors return `true` on every
order; neither ever reports failure. -/
theorem C9_processors_succeed (order : Order) :
    (CreditCardProcessor.process order).1 = true ∧
    (QrisProcessor.process order).1 = true :=
  ⟨rfl, rfl⟩

/-- Claim C10: for a fixed processor and notifier that respect the
capability contract of not writing the order's status, the coordinator's
return value and the final status depend only on the boolean the processor
returns: two runs on orders with equal status fields (differing arbitrarily
in customer name or total price, including negative prices) on which the
processor returns the same boolean yield the same return value and the same
final status. -/
theorem C10_noninterference (process : Order → Bool × Order) (send : Order → Order)
    (hproc : ∀ o, ((process o).2).status = o.status)
    (hsend : ∀ o, (send o).status = o.status)
    (o1 o2 : Order)
    (hs : o1.status = o2.status)
    (hb : (process o1).1 = (process o2).1) :
    (run_checkout process send o1).ret = (run_checkout process send o2).ret ∧
    (run_checkout process send o1).order.status =
      (run_checkout process send o2).order.status := by
  by_cases h : (process o1).1
  · have h2 : (process o2).1 = true := hb ▸ h
    simp [run_checkout, h, h2, hsend]
  · have h2 : (process o2).1 = false := by
      rw [← hb]
      exact Bool.not_eq_true _ |>.mp h
    simp [run_checkout, h, h2, hproc, hs]

/-- Claim C10 witness: Andi's order and an order with a different name and
a negative price produce the same return value and final status under a
contract-respecting processor and notifier. -/
theorem C10_witness :
    (run_checkout CreditCardProcessor.process EmailNotifier.send
      (Order.init "Andi" 500000)).ret =
      (run_checkout CreditCardProcessor.process EmailNotifier.send
        (Order.init "Budi" (-100))).ret ∧
    (run_checkout CreditCardProcessor.process EmailNotifier.send
      (Order.init "Andi" 500000)).order.status =
      (run_checkout CreditCardProcessor.process EmailNotifier.send
        (Order.init "Budi" (-100))).order.status :=
  C10_noninterference CreditCardProcessor.process EmailNotifier.send
    (fun o => rfl) (fun o => rfl)
    (Order.init "Andi" 500000) (Order.init "Budi" (-100)) rfl rfl
